import Mathlib

/-!
Verification of the sol-cloud validator orchestration core.

The Go source is shallowly embedded: each Go function becomes a Lean
function over explicit state and environment values.  Wall-clock times
are modelled as integers (`Int`); Go `time.Duration` values likewise.
Remote I/O (HTTP responses, subprocess results) is passed in as explicit
environment data, so every function is pure and executable.
-/

namespace Monitor

/-- `SlotEntry` represents a single slot observation with timestamp
(internal/monitor slot_history.go). -/
structure SlotEntry where
  slot : Nat
  timestamp : Int
deriving Repr, DecidableEq

/-- `StuckInfo` contains details about a stuck slot condition. -/
structure StuckInfo where
  stuckSlot : Nat
  firstObservedAt : Int
  lastObservedAt : Int
  duration : Int
  observationCount : Nat
deriving Repr, DecidableEq

/-- `SlotHistory` tracks recent slot observations and detects stuck
conditions.  The Go struct carries a mutex guarding `entries`; the
embedding models the state protected by that lock. -/
structure SlotHistory where
  entries : List SlotEntry
  maxEntries : Nat
  stuckThreshold : Int
deriving Repr, DecidableEq

/-- `NewSlotHistory` creates a new slot history tracker with capacity 20. -/
def NewSlotHistory (stuckThreshold : Int) : SlotHistory :=
  { entries := [], maxEntries := 20, stuckThreshold := stuckThreshold }

/-- `SlotHistory.Record` adds a new slot observation, trimming to the most
recent `maxEntries` entries.  The Go code reads `time.Now()`; the embedding
takes the current time `now` as an argument. -/
def SlotHistory.Record (h : SlotHistory) (slot : Nat) (now : Int) : SlotHistory :=
  let entries := h.entries ++ [{ slot := slot, timestamp := now }]
  let entries :=
    if entries.length > h.maxEntries then
      entries.drop (entries.length - h.maxEntries)
    else
      entries
  { h with entries := entries }

/-- `SlotHistory.IsStuck` checks if the slot has been stuck beyond the
threshold: scanning backward from the newest entry while the slot value is
unchanged, it requires at least 2 contiguous identical observations whose
elapsed time meets or exceeds the threshold.  `none` models Go's
`(false, nil)`, `some info` models `(true, &info)`. -/
def SlotHistory.IsStuck (h : SlotHistory) : Option StuckInfo :=
  if h.entries.length < 2 then none
  else
    match h.entries.getLast? with
    | none => none
    | some lastEntry =>
      let run := h.entries.reverse.takeWhile (fun e => e.slot == lastEntry.slot)
      match run.getLast? with
      | none => none
      | some firstOccurrence =>
        if run.length < 2 then none
        else
          let duration := lastEntry.timestamp - firstOccurrence.timestamp
          if duration < h.stuckThreshold then none
          else
            some { stuckSlot := lastEntry.slot
                   firstObservedAt := firstOccurrence.timestamp
                   lastObservedAt := lastEntry.timestamp
                   duration := duration
                   observationCount := run.length }

/-- `SlotHistory.GetLatestSlot` returns the most recent slot observation,
or 0 if no observations. -/
def SlotHistory.GetLatestSlot (h : SlotHistory) : Nat :=
  match h.entries.getLast? with
  | none => 0
  | some e => e.slot

/-- `SlotHistory.HasProgressed` returns true if the slot has changed
between the two most recent observations. -/
def SlotHistory.HasProgressed (h : SlotHistory) : Bool :=
  if h.entries.length < 2 then false
  else
    match h.entries.reverse with
    | a :: b :: _ => a.slot != b.slot
    | _ => false

/-- Replays a sequence of `Record` calls (slot, now) in order. -/
def recordAll (h : SlotHistory) (obs : List (Nat × Int)) : SlotHistory :=
  obs.foldl (fun acc o => acc.Record o.1 o.2) h

/-- The entry a single observation turns into. -/
def obsEntry (o : Nat × Int) : SlotEntry :=
  { slot := o.1, timestamp := o.2 }

/-- The suffix of the most recent `n` elements of a list. -/
def lastN (n : Nat) (l : List SlotEntry) : List SlotEntry :=
  l.drop (l.length - n)

end Monitor

namespace Str

/-!
Go string helpers, implemented over the character list of a `String` so
that every operation kernel-reduces (needed for concrete witnesses).
-/

/-- `strings.ToLower` (the source only lowercases ASCII API text). -/
def lower (s : String) : String :=
  ⟨s.data.map Char.toLower⟩

/-- `strings.TrimSpace`: drop whitespace from both ends. -/
def trim (s : String) : String :=
  ⟨((s.data.dropWhile Char.isWhitespace).reverse.dropWhile Char.isWhitespace).reverse⟩

/-- Substring test on character lists (haystack, needle). -/
def containsSub : List Char → List Char → Bool
  | [], sub => sub.isEmpty
  | c :: cs, sub => sub.isPrefixOf (c :: cs) || containsSub cs sub

/-- `strings.Contains s sub`. -/
def contains (s sub : String) : Bool :=
  containsSub s.data sub.data

end Str

namespace Watch

/-!
Embedding of `ValidatorWatcher.checkAndRestart` (cmd/watch.go).  The
watcher's remote interactions on one tick (the `getSlot` RPC, the
interactive confirmation read, and `provider.Restart`) are supplied as
explicit tick input; wall-clock time is the integer `now`.  Go's
`time.Time` zero value for `lastRestartTime` is modelled as `none`.
-/

structure WatcherConfig where
  restartCooldown : Int
  autoRestart : Bool
deriving Repr

/-- Mutable watcher fields read and written by `checkAndRestart`. -/
structure WatcherState where
  history : Monitor.SlotHistory
  restartCount : Nat
  lastRestartTime : Option Int
deriving Repr

/-- Environment for one tick of the watch loop. -/
structure TickInput where
  rpcSlot : Option Nat
  now : Int
  confirmAnswer : String
  restartSucceeds : Bool
deriving Repr

/-- Result of one tick: new state plus which effects were performed. -/
structure TickResult where
  state : WatcherState
  restartCalled : Bool
  restartSucceeded : Bool
  prompted : Bool
deriving Repr

/-- `ValidatorWatcher.checkAndRestart`: poll the slot, record it, check
the stuck condition, and restart subject to the cooldown and (unless
auto-restart) interactive confirmation.  On a successful restart the Go
code stamps `lastRestartTime` with `time.Now()`, modelled as the tick's
`now`. -/
def checkAndRestart (cfg : WatcherConfig) (w : WatcherState) (input : TickInput) : TickResult :=
  match input.rpcSlot with
  | none =>
    -- RPC unreachable: log a warning, not evidence of stuck-ness
    { state := w, restartCalled := false, restartSucceeded := false, prompted := false }
  | some slot =>
    let w := { w with history := w.history.Record slot input.now }
    match w.history.IsStuck with
    | none =>
      { state := w, restartCalled := false, restartSucceeded := false, prompted := false }
    | some _ =>
      let cooldownActive : Bool :=
        match w.lastRestartTime with
        | some t => decide (input.now - t < cfg.restartCooldown)
        | none => false
      if cooldownActive then
        { state := w, restartCalled := false, restartSucceeded := false, prompted := false }
      else
        let prompted := !cfg.autoRestart
        let confirmed :=
          if cfg.autoRestart then true
          else
            let response := Str.lower (Str.trim input.confirmAnswer)
            response == "y" || response == "yes"
        if !confirmed then
          { state := w, restartCalled := false, restartSucceeded := false, prompted := prompted }
        else if input.restartSucceeds then
          { state := { w with restartCount := w.restartCount + 1,
                              lastRestartTime := some input.now },
            restartCalled := true, restartSucceeded := true, prompted := prompted }
        else
          { state := w, restartCalled := true, restartSucceeded := false, prompted := prompted }

end Watch

namespace Providers

/-!
Embedding of the Fly provider (internal/providers).  HTTP responses and
subprocess results are supplied as explicit environment values; the
functions below reproduce the Go control flow over them.
-/

/-- Provider-agnostic deployment inputs (provider.go `Config`); only the
fields the orchestration logic reads. -/
structure Config where
  name : String
  orgSlug : String
  region : String
  projectDir : String
  dryRun : Bool
  skipHealthCheck : Bool
  volumeSize : Int
  skipVolume : Bool
deriving Repr

/-- Canonical endpoints for a deployed validator (provider.go `Deployment`). -/
structure Deployment where
  name : String
  rpcURL : String
  webSocketURL : String
  provider : String
  artifactsDir : String
deriving Repr, DecidableEq

/-- Outcome of one HTTP exchange: a transport-level failure, or a status
code plus response body (`doMachinesRequest` / the auth probes). -/
inductive APIResp where
  | transportError (msg : String)
  | response (status : Nat) (body : String)
deriving Repr, DecidableEq

/-- Decoded GraphQL envelope: the `errors` array's messages, in order. -/
structure GraphQLResp where
  errorMessages : List String
deriving Repr, DecidableEq

/-- The conflict-body test of `ensureAppExists`: documented
"already exists"-style substrings, matched on the lowercased body. -/
def flyConflictBody (body : String) : Bool :=
  let lower := Str.lower body
  Str.contains lower "already exists" ||
  Str.contains lower "already taken" ||
  Str.contains lower "already been taken" ||
  Str.contains lower "has already been taken" ||
  Str.contains lower "name is taken"

/-- `FlyProvider.ensureAppExists`: POST /apps; 2xx succeeds, a 409/422
conflict whose body names an "already exists"-style condition is absorbed
as success, anything else fails. -/
def ensureAppExists (resp : APIResp) (appName : String) : Except String Unit :=
  match resp with
  | .transportError e => .error e
  | .response status body =>
    if 200 ≤ status ∧ status < 300 then .ok ()
    else if (status = 409 ∨ status = 422) ∧ flyConflictBody body then .ok ()
    else .error ("create app " ++ appName ++ " failed (" ++ toString status ++ "): " ++
      Str.trim body)

/-- `FlyProvider.allocateIPAddress`: runs the allocate mutation; a
GraphQL error whose (first) message contains "already has" or
"already allocated" is absorbed as success. -/
def allocateIPAddress (resp : Except String GraphQLResp) (ipType : String) :
    Except String Unit :=
  match resp with
  | .error e => .error ("allocate " ++ ipType ++ " ip: " ++ e)
  | .ok r =>
    match r.errorMessages with
    | [] => .ok ()
    | msg :: _ =>
      let m := Str.lower (Str.trim msg)
      if Str.contains m "already has" || Str.contains m "already allocated" then .ok ()
      else .error ("allocate " ++ ipType ++ " ip graphql error: " ++ msg)

/-- `FlyProvider.ensureNetworking`: allocate a shared v4 then a v6
address, stopping at the first failure. -/
def ensureNetworking (respV4 respV6 : Except String GraphQLResp) : Except String Unit :=
  match allocateIPAddress respV4 "shared_v4" with
  | .error e => .error e
  | .ok _ => allocateIPAddress respV6 "v6"

/-- A Fly volume as decoded from the volumes API. -/
structure FlyVolume where
  id : String
  name : String
  state : String
  region : String
deriving Repr, DecidableEq

/-- `FlyProvider.ensureVolume`: the volume is named `<app>_ledger`;
existing volumes are listed first and a volume with that name is reused;
only when absent is the create call's result consulted.  `listResp` is
the decoded result of `listVolumes` (its 404 case decodes to an empty
list) and `createResp` the result of `createVolume`. -/
def ensureVolume (listResp : Except String (List FlyVolume))
    (createResp : Except String FlyVolume) (appName : String) :
    Except String FlyVolume :=
  let volumeName := appName ++ "_ledger"
  match listResp with
  | .error e => .error ("list volumes: " ++ e)
  | .ok volumes =>
    match volumes.find? (fun v => v.name == volumeName) with
    | some v => .ok v
    | none => createResp

/-- The character class of the fly host pattern `[a-zA-Z0-9-]`. -/
def isFlyHostChar (c : Char) : Bool :=
  c.isAlpha || c.isDigit || c == '-'

/-- The literal tail `.fly.dev` of the host pattern. -/
def flyHostSuffix : List Char := ".fly.dev".data

/-- Leftmost match of `[a-zA-Z0-9-]+\.fly\.dev` in a character list. -/
def findFlyHost : List Char → Option (List Char)
  | [] => none
  | c :: cs =>
    let run := (c :: cs).takeWhile isFlyHostChar
    if run.length > 0 && flyHostSuffix.isPrefixOf ((c :: cs).drop run.length) then
      some (run ++ flyHostSuffix)
    else
      findFlyHost cs

/-- `extractFlyHost`: first `<label>.fly.dev` occurrence in the deploy
output, lowercased; empty when absent. -/
def extractFlyHost (output : String) : String :=
  match findFlyHost output.data with
  | some host => ⟨host.map Char.toLower⟩
  | none => ""

/-- Remote/subprocess environment consumed by `deployViaAPI`. -/
structure ApiEnv where
  flyctlInstalled : Bool
  orgSlug : Except String String
  appCreateResp : APIResp
  ipRespV4 : Except String GraphQLResp
  ipRespV6 : Except String GraphQLResp
  listVolumesResp : Except String (List FlyVolume)
  createVolumeResp : Except String FlyVolume
  flyctlDeployOutput : String
  flyctlDeploySucceeds : Bool
deriving Repr

/-- `FlyProvider.deployViaAPI` (fly_api_deploy.go): ensure the app,
networking and (unless skipped) the volume, then run
`flyctl deploy --remote-only`.  Returns the accumulated deploy log and
either an error or the extracted host.  A volume-step failure is
downgraded to a log warning and the sequence continues. -/
def deployViaAPI (env : ApiEnv) (cfg : Config) : String × Except String String :=
  if !env.flyctlInstalled then
    ("", .error "flyctl not found in PATH")
  else
    match env.orgSlug with
    | .error e => ("", .error ("resolve org slug: " ++ e))
    | .ok orgSlug =>
      let logs := "api deploy started\n" ++
        "app=" ++ cfg.name ++ " org=" ++ orgSlug ++ " region=" ++ cfg.region ++ "\n"
      match ensureAppExists env.appCreateResp cfg.name with
      | .error e => (logs, .error e)
      | .ok _ =>
        let logs := logs ++ "app ensured\n"
        match ensureNetworking env.ipRespV4 env.ipRespV6 with
        | .error e => (logs, .error e)
        | .ok _ =>
          let logs := logs ++ "networking ensured\n"
          let logs :=
            if !cfg.skipVolume then
              match ensureVolume env.listVolumesResp env.createVolumeResp cfg.name with
              | .error e =>
                logs ++ "volume creation warning: " ++ e ++ "\n" ++
                  "continuing with ephemeral storage (data will not persist across restarts)\n"
              | .ok volume =>
                logs ++ "volume ensured: " ++ volume.name ++
                  " (" ++ toString cfg.volumeSize ++ "GB)\n"
            else
              logs ++ "volume creation skipped (using ephemeral storage)\n"
          let deployOutput := env.flyctlDeployOutput
          let logs := logs ++ "\n[flyctl deploy --remote-only]\n" ++ deployOutput
          if !env.flyctlDeploySucceeds then
            (logs, .error ("fly remote deploy failed: " ++ Str.trim deployOutput))
          else
            let host := extractFlyHost deployOutput
            let host := if host = "" then cfg.name ++ ".fly.dev" else host
            (logs, .ok host)

/-- `looksLikeRouteNotFound`: distinguishes a generic router 404 body
from an authenticated application-level 404. -/
def looksLikeRouteNotFound (body : String) : Bool :=
  let lower := Str.lower (Str.trim body)
  Str.contains lower "404 page not found" || lower == "not found"

/-- The machines auth probe's failure modes: a transport error or the
`flyAPIStatusError` carrying status and body (`errors.As` target). -/
inductive ProbeErr where
  | transport (msg : String)
  | statusErr (status : Nat) (body : String)
deriving Repr, DecidableEq

/-- `FlyProvider.verifyAccessTokenMachinesProbe`: GET the probe app's
machines; 2xx is success, any other status becomes a `flyAPIStatusError`. -/
def verifyAccessTokenMachinesProbe (resp : APIResp) : Except ProbeErr Unit :=
  match resp with
  | .transportError e => .error (.transport ("machines auth probe failed: " ++ e))
  | .response status body =>
    if 200 ≤ status ∧ status < 300 then .ok ()
    else .error (.statusErr status body)

/-- Decoded GraphQL token-check envelope: error messages plus the number
of entries in `data`. -/
structure GraphQLEnvelope where
  errorMessages : List String
  dataSize : Nat
deriving Repr, DecidableEq

/-- `FlyProvider.verifyAccessTokenGraphQL`: POST the viewer query;
401/403 reject, other non-2xx are unexpected, otherwise the decoded
envelope (`decoded`, abstracting `json.Unmarshal`) must have no errors
and nonempty data. -/
def verifyAccessTokenGraphQL (resp : APIResp)
    (decoded : Except String GraphQLEnvelope) : Except String Unit :=
  match resp with
  | .transportError e => .error ("graphql token check failed: " ++ e)
  | .response status body =>
    if status = 401 ∨ status = 403 then
      .error ("token rejected by Fly GraphQL API (" ++ toString status ++ "): " ++
        Str.trim body)
    else if status < 200 ∨ 300 ≤ status then
      .error ("unexpected Fly GraphQL response (" ++ toString status ++ "): " ++
        Str.trim body)
    else
      match decoded with
      | .error e => .error ("decode graphql token check response: " ++ e)
      | .ok envl =>
        match envl.errorMessages with
        | msg :: _ => .error ("graphql token check error: " ++ Str.trim msg)
        | [] =>
          if envl.dataSize = 0 then .error "graphql token check returned empty data"
          else .ok ()

/-- `FlyProvider.VerifyAccessToken`: machines-API probe first; 401 is a
definitive rejection, 403 falls back to the GraphQL check, a route-style
404 falls back while an authenticated 404 is accepted, and every other
non-2xx status also consults the fallback, whose success accepts the
token.  `gqlResp`/`gqlDecoded` are the fallback probe's environment. -/
def VerifyAccessToken (token : String) (machinesResp : APIResp)
    (gqlResp : APIResp) (gqlDecoded : Except String GraphQLEnvelope) :
    Except String Unit :=
  if Str.trim token = "" then .error "fly access token is required"
  else
    match verifyAccessTokenMachinesProbe machinesResp with
    | .ok _ => .ok ()
    | .error (.transport e) => .error ("token verification failed: " ++ e)
    | .error (.statusErr status body) =>
      if status = 401 then
        .error ("token rejected by Fly API (" ++ toString status ++ "): " ++ Str.trim body)
      else if status = 403 then
        match verifyAccessTokenGraphQL gqlResp gqlDecoded with
        | .ok _ => .ok ()
        | .error fallbackErr =>
          .error ("token verification failed: machines API returned 403 and graphql fallback failed: " ++
            fallbackErr)
      else if status = 404 then
        if !looksLikeRouteNotFound body then .ok ()
        else
          match verifyAccessTokenGraphQL gqlResp gqlDecoded with
          | .ok _ => .ok ()
          | .error fallbackErr =>
            .error ("token verification failed: machines endpoint returned route 404 and graphql fallback failed: " ++
              fallbackErr)
      else
        match verifyAccessTokenGraphQL gqlResp gqlDecoded with
        | .ok _ => .ok ()
        | .error _ =>
          .error ("token verification failed: fly api returned " ++ toString status ++
            ": " ++ Str.trim body)

/-- Local (filesystem/template/credential) environment of `Deploy`. -/
structure DeployEnv where
  cwd : Except String String
  mkdirArtifacts : Except String Unit
  mkdirProgram : Except String Unit
  prepareProgram : Except String Unit
  renderTemplates : List (Except String Unit)
  resolveToken : Except String String
  writeDeployLog : Except String Unit
  api : ApiEnv
  healthCheck : Except String Unit

/-- First failure among the rendered template targets, in order. -/
def firstRenderError : List (Except String Unit) → Except String Unit
  | [] => .ok ()
  | .error e :: _ => .error e
  | .ok _ :: rest => firstRenderError rest

/-- `FlyProvider.Deploy` (the Machines-API provider): validate the
config, prepare local artifacts, and — before any token resolution or
remote call — return the predicted deployment when `dryRun` is set;
otherwise resolve the token, run `deployViaAPI`, persist the deploy log,
and health-check the resulting endpoint unless skipped.
`prepareProgram` abstracts `prepareProgramDeployData` (its template data
is not read by the orchestration flow) and `healthCheck` the
`waitForRPCHealthy` call. -/
def Deploy (env : DeployEnv) (cfg : Config) : Except String Deployment :=
  if Str.trim cfg.name = "" then .error "deployment name is required"
  else if Str.trim cfg.region = "" then .error "region is required"
  else
    match (if cfg.projectDir = "" then env.cwd else .ok cfg.projectDir :
        Except String String) with
    | .error e => .error ("get working directory: " ++ e)
    | .ok projectDir =>
      let artifactsDir := projectDir ++ "/.sol-cloud/deployments/" ++ cfg.name
      match env.mkdirArtifacts with
      | .error e => .error ("create artifacts directory: " ++ e)
      | .ok _ =>
      match env.mkdirProgram with
      | .error e => .error ("create program artifacts directory: " ++ e)
      | .ok _ =>
      match env.prepareProgram with
      | .error e => .error e
      | .ok _ =>
      match firstRenderError env.renderTemplates with
      | .error e => .error e
      | .ok _ =>
        let deployment : Deployment :=
          { name := cfg.name
            rpcURL := "https://" ++ cfg.name ++ ".fly.dev"
            webSocketURL := "wss://" ++ cfg.name ++ ".fly.dev"
            provider := "fly"
            artifactsDir := artifactsDir }
        if cfg.dryRun then .ok deployment
        else
          match env.resolveToken with
          | .error e => .error ("fly auth required: run sol-cloud auth fly: " ++ e)
          | .ok _token =>
            let out := deployViaAPI env.api cfg
            let deployOutput := out.1
            let result := out.2
            let hasOutput : Bool := Str.trim deployOutput != ""
            let logStep : Except String Unit :=
              if hasOutput then env.writeDeployLog else .ok ()
            match logStep with
            | .error writeErr =>
              match result with
              | .error e => .error (e ++ " (also failed to write deploy log: " ++ writeErr ++ ")")
              | .ok _ => .error ("write deploy log: " ++ writeErr)
            | .ok _ =>
              match result with
              | .error e =>
                if hasOutput then .error (e ++ "\nsee deploy log") else .error e
              | .ok host =>
                let host := if host = "" then cfg.name ++ ".fly.dev" else host
                let deployment :=
                  { deployment with rpcURL := "https://" ++ host,
                                    webSocketURL := "wss://" ++ host }
                if !cfg.skipHealthCheck then
                  match env.healthCheck with
                  | .error e =>
                    .error ("deployment completed but RPC health check failed: " ++ e)
                  | .ok _ => .ok deployment
                else .ok deployment

end Providers

namespace Health

/-!
Embedding of `waitForRPCHealthy`.  Probes are instantaneous and happen at
times `0, interval, 2·interval, …`; `probe k` is the outcome of the
`k`-th liveness check.  After a failed probe at time `k·interval` the Go
select picks the timeout context's expiry (at `timeout`) when it is due
no later than the next tick, i.e. when `timeout ≤ (k+1)·interval`; no
timeout context is installed when `timeout ≤ 0`.  Recursion is driven by
explicit fuel; theorems supply enough fuel for the loop to decide. -/

inductive WaitOutcome where
  | healthy (attempts : Nat) (time : Int)
  | timedOut (lastErr : String) (time : Int)
  | fuelExhausted
deriving Repr, DecidableEq

/-- The poll loop of `waitForRPCHealthy`: probe, return on success,
otherwise remember the failure and select between context expiry and the
next tick. -/
def waitLoop (probe : Nat → Except String Unit) (timeout interval : Int) :
    Nat → Nat → WaitOutcome
  | 0, _ => .fuelExhausted
  | fuel + 1, k =>
    match probe k with
    | .ok _ => .healthy (k + 1) ((k : Int) * interval)
    | .error e =>
      if 0 < timeout ∧ timeout ≤ ((k : Int) + 1) * interval then
        .timedOut ("rpc endpoint did not become healthy: " ++ e)
          (max ((k : Int) * interval) timeout)
      else
        waitLoop probe timeout interval fuel (k + 1)

/-- `waitForRPCHealthy`: reject an empty URL, then run the poll loop. -/
def waitForRPCHealthy (rpcURL : String) (probe : Nat → Except String Unit)
    (timeout interval : Int) (fuel : Nat) : Except String WaitOutcome :=
  if Str.trim rpcURL = "" then .error "rpc URL is empty"
  else .ok (waitLoop probe timeout interval fuel 0)

end Health

/-!
Helper lemmas (shared infrastructure for the claim theorems below).
-/

namespace Monitor

/-- Recording keeps the configured capacity unchanged. -/
theorem Record_maxEntries (h : SlotHistory) (s : Nat) (t : Int) :
    (h.Record s t).maxEntries = h.maxEntries := by
  rfl

/-- Recording always leaves exactly the most recent `maxEntries` of the
appended list. -/
theorem record_entries_eq (h : SlotHistory) (s : Nat) (t : Int) :
    (h.Record s t).entries = lastN h.maxEntries (h.entries ++ [⟨s, t⟩]) := by
  unfold SlotHistory.Record lastN
  by_cases hc : (h.entries ++ [(⟨s, t⟩ : SlotEntry)]).length > h.maxEntries
  · simp only [hc, if_pos]
  · simp only [hc, if_neg, ite_false]
    have h0 : (h.entries ++ [(⟨s, t⟩ : SlotEntry)]).length - h.maxEntries = 0 := by
      omega
    rw [h0, List.drop_zero]

/-- Keeping the last `n` elements commutes with appending one element. -/
theorem lastN_append_lastN (n : Nat) (hn : 1 ≤ n) (l : List SlotEntry) (e : SlotEntry) :
    lastN n (lastN n l ++ [e]) = lastN n (l ++ [e]) := by
  unfold lastN
  by_cases hl : l.length ≤ n
  · have h0 : l.length - n = 0 := by omega
    rw [h0, List.drop_zero]
  · have hlen : (l.drop (l.length - n)).length = n := by
      rw [List.length_drop]; omega
    have hidx : (l.drop (l.length - n) ++ [e]).length - n = 1 := by
      rw [List.length_append, hlen]; simp
    rw [hidx]
    have h1 : (1 : Nat) ≤ (l.drop (l.length - n)).length := by omega
    rw [List.drop_append_of_le_length h1]
    have hidx2 : (l ++ [e]).length - n = l.length + 1 - n := by
      rw [List.length_append]; rfl
    rw [hidx2]
    have h2 : l.length + 1 - n ≤ l.length := by omega
    rw [List.drop_append_of_le_length h2]
    rw [List.drop_drop]
    congr 2
    omega

/-- After any sequence of `Record` calls the buffer is the most recent 20
entries of the full observation sequence, and the capacity is unchanged. -/
theorem recordAll_spec (obs : List (Nat × Int)) :
    ∀ (h : SlotHistory) (full : List SlotEntry), h.maxEntries = 20 →
      h.entries = lastN 20 full →
      (recordAll h obs).entries = lastN 20 (full ++ obs.map obsEntry) ∧
      (recordAll h obs).maxEntries = 20 := by
  induction obs with
  | nil =>
    intro h full hmax hent
    constructor
    · simpa [recordAll] using hent
    · simpa [recordAll] using hmax
  | cons o rest ih =>
    intro h full hmax hent
    have hrec : (h.Record o.1 o.2).entries = lastN 20 (full ++ [obsEntry o]) := by
      rw [record_entries_eq, hmax, hent]
      exact lastN_append_lastN 20 (by omega) full (obsEntry o)
    have hmax' : (h.Record o.1 o.2).maxEntries = 20 := by
      rw [Record_maxEntries, hmax]
    have hstep := ih (h.Record o.1 o.2) (full ++ [obsEntry o]) hmax' hrec
    constructor
    · rw [show recordAll h (o :: rest) = recordAll (h.Record o.1 o.2) rest from rfl]
      rw [hstep.1]
      congr 1
      simp
    · rw [show recordAll h (o :: rest) = recordAll (h.Record o.1 o.2) rest from rfl]
      exact hstep.2

/-- The fresh history is (vacuously) the last 20 of the empty sequence. -/
theorem newSlotHistory_lastN (threshold : Int) :
    (NewSlotHistory threshold).entries = lastN 20 [] := rfl

/-- Closed form of the buffer after recording from a fresh history. -/
theorem recordAll_new_entries (threshold : Int) (obs : List (Nat × Int)) :
    (recordAll (NewSlotHistory threshold) obs).entries = lastN 20 (obs.map obsEntry) := by
  have := (recordAll_spec obs (NewSlotHistory threshold) [] rfl
    (newSlotHistory_lastN threshold)).1
  simpa using this

/-- The retained suffix never exceeds the capacity. -/
theorem lastN_length_le (n : Nat) (l : List SlotEntry) : (lastN n l).length ≤ n := by
  unfold lastN
  rw [List.length_drop]
  omega

/-- Non-decreasing observation timestamps remain non-decreasing in the
retained buffer (it is a suffix of the full sequence). -/
theorem entries_timestamps_sorted (threshold : Int) (obs : List (Nat × Int))
    (hsorted : (obs.map Prod.snd).Sorted (· ≤ ·)) :
    ((recordAll (NewSlotHistory threshold) obs).entries.map SlotEntry.timestamp).Sorted
      (· ≤ ·) := by
  rw [recordAll_new_entries]
  unfold lastN
  rw [List.map_drop]
  have hmm : (obs.map obsEntry).map SlotEntry.timestamp = obs.map Prod.snd := by
    rw [List.map_map]
    rfl
  rw [hmm]
  exact hsorted.sublist (List.drop_sublist _ _)

/-- Recording a batch ending in `o` is recording the batch then `o`. -/
theorem recordAll_concat (h : SlotHistory) (obs : List (Nat × Int)) (o : Nat × Int) :
    recordAll h (obs ++ [o]) = (recordAll h obs).Record o.1 o.2 := by
  simp [recordAll, List.foldl_append]

/-- The newest entry always survives the ring trim. -/
theorem record_getLast (h : SlotHistory) (s : Nat) (t : Int) (hmax : 1 ≤ h.maxEntries) :
    (h.Record s t).entries.getLast? = some ⟨s, t⟩ := by
  rw [record_entries_eq]
  unfold lastN
  have hle : (h.entries ++ [(⟨s, t⟩ : SlotEntry)]).length - h.maxEntries
      ≤ h.entries.length := by
    rw [List.length_append]
    simp only [List.length_singleton]
    omega
  rw [List.drop_append_of_le_length hle, List.getLast?_concat]

end Monitor

namespace Watch

/-- A tick that reports a successful restart stamps `lastRestartTime`
with the tick's time. -/
theorem checkAndRestart_success_time (cfg : WatcherConfig) (w : WatcherState)
    (input : TickInput) :
    (checkAndRestart cfg w input).restartSucceeded = true →
    (checkAndRestart cfg w input).state.lastRestartTime = some input.now := by
  unfold checkAndRestart
  cases hre : input.rpcSlot with
  | none => simp
  | some slot =>
    cases hs : (w.history.Record slot input.now).IsStuck with
    | none => simp [hs]
    | some info =>
      simp only [hs]
      split_ifs <;> simp

/-- A stuck tick inside the cooldown window neither restarts nor prompts
nor changes the restart bookkeeping. -/
theorem checkAndRestart_cooldown (cfg : WatcherConfig) (w : WatcherState)
    (input : TickInput) (slot : Nat) (t : Int) (info : Monitor.StuckInfo) :
    input.rpcSlot = some slot →
    (w.history.Record slot input.now).IsStuck = some info →
    w.lastRestartTime = some t →
    input.now - t < cfg.restartCooldown →
    (checkAndRestart cfg w input).restartCalled = false ∧
    (checkAndRestart cfg w input).prompted = false ∧
    (checkAndRestart cfg w input).state.restartCount = w.restartCount ∧
    (checkAndRestart cfg w input).state.lastRestartTime = w.lastRestartTime := by
  intro h1 h2 h3 h4
  unfold checkAndRestart
  rw [h1]
  simp only [h2]
  simp [h3, h4]

end Watch

/-- Claim C1: `IsStuck` returns `none` whenever the history holds fewer
than 2 observations, or the two most recent observations carry different
slot values, or the elapsed time across the contiguous run of the newest
slot value is below the configured threshold; and on a history
`[(5,t0),(5,t1),(5,t2)]` with `t2 - t0 ≥ threshold` (equality included)
it reports stuck with slot 5, first/last timestamps `t0`/`t2`, duration
`t2 - t0` and observation count 3. -/
theorem C1_isStuck_spec (h : Monitor.SlotHistory) :
    (h.entries.length < 2 → h.IsStuck = none) ∧
    (∀ pre a b, h.entries = pre ++ [a, b] → a.slot ≠ b.slot → h.IsStuck = none) ∧
    (∀ lastEntry firstOccurrence,
      h.entries.getLast? = some lastEntry →
      (h.entries.reverse.takeWhile (fun e => e.slot == lastEntry.slot)).getLast?
        = some firstOccurrence →
      lastEntry.timestamp - firstOccurrence.timestamp < h.stuckThreshold →
      h.IsStuck = none) ∧
    (∀ t0 t1 t2 threshold,
      h = { entries := [⟨5, t0⟩, ⟨5, t1⟩, ⟨5, t2⟩], maxEntries := 20,
            stuckThreshold := threshold } →
      threshold ≤ t2 - t0 →
      h.IsStuck = some ⟨5, t0, t2, t2 - t0, 3⟩) := by
  refine ⟨?_, ?_, ?_, ?_⟩
  · intro hlen
    simp [Monitor.SlotHistory.IsStuck, hlen]
  · intro pre a b hent hne
    have hlen : ¬ h.entries.length < 2 := by
      rw [hent]; simp
    have hlast : h.entries.getLast? = some b := by
      rw [hent, show pre ++ [a, b] = (pre ++ [a]) ++ [b] by simp, List.getLast?_concat]
    have hrev : h.entries.reverse = b :: (a :: pre.reverse) := by
      rw [hent]; simp
    unfold Monitor.SlotHistory.IsStuck
    rw [if_neg hlen, hlast]
    simp [hrev, List.takeWhile_cons, hne]
  · intro lastEntry firstOccurrence hlast hrun hdur
    by_cases hlen : h.entries.length < 2
    · simp [Monitor.SlotHistory.IsStuck, hlen]
    · unfold Monitor.SlotHistory.IsStuck
      rw [if_neg hlen, hlast]
      simp only [hrun]
      split
      · rfl
      · simp [hdur]
  · intro t0 t1 t2 threshold hh hthr
    subst hh
    simp [Monitor.SlotHistory.IsStuck, List.takeWhile]
    omega

/-- Concrete instances discharging every hypothesis of `C1_isStuck_spec`. -/
theorem C1_isStuck_spec_witness :
    (Monitor.SlotHistory.IsStuck
      { entries := [⟨7, 0⟩], maxEntries := 20, stuckThreshold := 1 } = none) ∧
    (Monitor.SlotHistory.IsStuck
      { entries := [⟨4, 0⟩, ⟨5, 1⟩], maxEntries := 20, stuckThreshold := 0 } = none) ∧
    (Monitor.SlotHistory.IsStuck
      { entries := [⟨5, 0⟩, ⟨5, 3⟩], maxEntries := 20, stuckThreshold := 4 } = none) ∧
    (Monitor.SlotHistory.IsStuck
      { entries := [⟨5, 0⟩, ⟨5, 3⟩, ⟨5, 10⟩], maxEntries := 20, stuckThreshold := 10 }
        = some ⟨5, 0, 10, 10, 3⟩) := by
  refine ⟨?_, ?_, ?_, ?_⟩
  · exact (C1_isStuck_spec _).1 (by decide)
  · exact (C1_isStuck_spec _).2.1 [] ⟨4, 0⟩ ⟨5, 1⟩ rfl (by decide)
  · exact (C1_isStuck_spec _).2.2.1 ⟨5, 3⟩ ⟨5, 0⟩ (by decide) (by decide) (by decide)
  · exact (C1_isStuck_spec _).2.2.2 0 3 10 10 rfl (by decide)

/-- Claim C2: after every sequence of `Record` calls the buffer holds at
most 20 entries, is exactly the most recent observations in arrival
order (the last 20 of the full sequence, oldest evicted first), and its
timestamps are non-decreasing whenever the observation times are. -/
theorem C2_record_ring_invariant (threshold : Int) (obs : List (Nat × Int)) :
    (Monitor.recordAll (Monitor.NewSlotHistory threshold) obs).entries
        = Monitor.lastN 20 (obs.map Monitor.obsEntry) ∧
    (Monitor.recordAll (Monitor.NewSlotHistory threshold) obs).entries.length ≤ 20 ∧
    ((obs.map Prod.snd).Sorted (· ≤ ·) →
      ((Monitor.recordAll (Monitor.NewSlotHistory threshold) obs).entries.map
        Monitor.SlotEntry.timestamp).Sorted (· ≤ ·)) := by
  refine ⟨Monitor.recordAll_new_entries threshold obs, ?_,
    Monitor.entries_timestamps_sorted threshold obs⟩
  rw [Monitor.recordAll_new_entries]
  exact Monitor.lastN_length_le 20 _

/-- Concrete instance discharging the sortedness hypothesis of
`C2_record_ring_invariant`. -/
theorem C2_record_ring_invariant_witness :
    ((Monitor.recordAll (Monitor.NewSlotHistory 3) [(1, 0), (1, 2), (2, 5)]).entries.map
        Monitor.SlotEntry.timestamp).Sorted (· ≤ ·) ∧
    (Monitor.recordAll (Monitor.NewSlotHistory 3) [(1, 0), (1, 2), (2, 5)]).entries.length
        ≤ 20 :=
  ⟨(C2_record_ring_invariant 3 [(1, 0), (1, 2), (2, 5)]).2.2 (by decide),
   (C2_record_ring_invariant 3 [(1, 0), (1, 2), (2, 5)]).2.1⟩

/-- Claim C9: `GetLatestSlot` returns 0 on an empty history and otherwise
the slot of the most recently recorded observation; as a pure function of
the history it cannot fail and leaves the history unchanged. -/
theorem C9_getLatestSlot_spec (threshold : Int) (obs : List (Nat × Int)) :
    (Monitor.NewSlotHistory threshold).GetLatestSlot = 0 ∧
    (∀ pre o, obs = pre ++ [o] →
      (Monitor.recordAll (Monitor.NewSlotHistory threshold) obs).GetLatestSlot = o.1) := by
  constructor
  · rfl
  · intro pre o hobs
    subst hobs
    rw [Monitor.recordAll_concat]
    have hmax : (Monitor.recordAll (Monitor.NewSlotHistory threshold) pre).maxEntries
        = 20 :=
      (Monitor.recordAll_spec pre (Monitor.NewSlotHistory threshold) [] rfl rfl).2
    unfold Monitor.SlotHistory.GetLatestSlot
    rw [Monitor.record_getLast _ _ _ (by rw [hmax]; omega)]

/-- Concrete instance discharging the hypotheses of `C9_getLatestSlot_spec`. -/
theorem C9_getLatestSlot_spec_witness :
    (Monitor.NewSlotHistory 3).GetLatestSlot = 0 ∧
    (Monitor.recordAll (Monitor.NewSlotHistory 3) [(3, 0), (9, 4)]).GetLatestSlot = 9 :=
  ⟨(C9_getLatestSlot_spec 3 [(3, 0), (9, 4)]).1,
   (C9_getLatestSlot_spec 3 [(3, 0), (9, 4)]).2 [(3, 0)] (9, 4) rfl⟩

/-- Claim C3: a stuck detection while a prior restart is within the
cooldown window issues no restart call, prompts for nothing and leaves
the restart counter and last-restart timestamp unchanged; consequently a
second stuck detection within one cooldown window of a successful
restart triggers no second restart call. -/
theorem C3_cooldown_skip (cfg : Watch.WatcherConfig) (w : Watch.WatcherState) :
    (∀ (input : Watch.TickInput) (slot : Nat) (t : Int) (info : Monitor.StuckInfo),
      input.rpcSlot = some slot →
      (w.history.Record slot input.now).IsStuck = some info →
      w.lastRestartTime = some t →
      input.now - t < cfg.restartCooldown →
      (Watch.checkAndRestart cfg w input).restartCalled = false ∧
      (Watch.checkAndRestart cfg w input).prompted = false ∧
      (Watch.checkAndRestart cfg w input).state.restartCount = w.restartCount ∧
      (Watch.checkAndRestart cfg w input).state.lastRestartTime = w.lastRestartTime) ∧
    (∀ (input input₂ : Watch.TickInput) (slot₂ : Nat) (info₂ : Monitor.StuckInfo),
      (Watch.checkAndRestart cfg w input).restartSucceeded = true →
      input₂.rpcSlot = some slot₂ →
      (((Watch.checkAndRestart cfg w input).state.history.Record slot₂ input₂.now).IsStuck
        = some info₂) →
      input₂.now - input.now < cfg.restartCooldown →
      (Watch.checkAndRestart cfg (Watch.checkAndRestart cfg w input).state input₂).restartCalled
        = false) := by
  constructor
  · intro input slot t info h1 h2 h3 h4
    exact Watch.checkAndRestart_cooldown cfg w input slot t info h1 h2 h3 h4
  · intro input input₂ slot₂ info₂ hsucc h1 h2 h4
    have htime := Watch.checkAndRestart_success_time cfg w input hsucc
    exact (Watch.checkAndRestart_cooldown cfg (Watch.checkAndRestart cfg w input).state
      input₂ slot₂ input.now info₂ h1 h2 htime h4).1

/-- Concrete ticks discharging every hypothesis of `C3_cooldown_skip`:
a stuck tick under an active cooldown, and a successful restart followed
by a stuck tick one time unit later. -/
theorem C3_cooldown_skip_witness :
    ((Watch.checkAndRestart ⟨100, true⟩ ⟨⟨[⟨5, 0⟩, ⟨5, 1⟩], 20, 2⟩, 7, some 9⟩
        ⟨some 5, 10, "", true⟩).restartCalled = false ∧
      (Watch.checkAndRestart ⟨100, true⟩ ⟨⟨[⟨5, 0⟩, ⟨5, 1⟩], 20, 2⟩, 7, some 9⟩
        ⟨some 5, 10, "", true⟩).prompted = false ∧
      (Watch.checkAndRestart ⟨100, true⟩ ⟨⟨[⟨5, 0⟩, ⟨5, 1⟩], 20, 2⟩, 7, some 9⟩
        ⟨some 5, 10, "", true⟩).state.restartCount = 7 ∧
      (Watch.checkAndRestart ⟨100, true⟩ ⟨⟨[⟨5, 0⟩, ⟨5, 1⟩], 20, 2⟩, 7, some 9⟩
        ⟨some 5, 10, "", true⟩).state.lastRestartTime = some 9) ∧
    (Watch.checkAndRestart ⟨100, true⟩
      (Watch.checkAndRestart ⟨100, true⟩ ⟨⟨[⟨5, 0⟩, ⟨5, 1⟩], 20, 2⟩, 0, none⟩
        ⟨some 5, 10, "", true⟩).state
      ⟨some 5, 11, "", true⟩).restartCalled = false := by
  constructor
  · exact (C3_cooldown_skip ⟨100, true⟩ ⟨⟨[⟨5, 0⟩, ⟨5, 1⟩], 20, 2⟩, 7, some 9⟩).1
      ⟨some 5, 10, "", true⟩ 5 9 ⟨5, 0, 10, 10, 3⟩ rfl (by decide) rfl (by decide)
  · exact (C3_cooldown_skip ⟨100, true⟩ ⟨⟨[⟨5, 0⟩, ⟨5, 1⟩], 20, 2⟩, 0, none⟩).2
      ⟨some 5, 10, "", true⟩ ⟨some 5, 11, "", true⟩ 5 ⟨5, 0, 11, 11, 4⟩
      (by decide) rfl (by decide) (by decide)

namespace Providers

/-- A 409/422 app-creation response whose body names a documented
conflict is absorbed as success by `ensureAppExists`. -/
theorem ensureAppExists_conflict (status : Nat) (body name : String)
    (hst : status = 409 ∨ status = 422) (hbody : flyConflictBody body = true) :
    ensureAppExists (.response status body) name = .ok () := by
  unfold ensureAppExists
  have h2xx : ¬(200 ≤ status ∧ status < 300) := by
    rcases hst with h | h <;> omega
  simp [h2xx, hst, hbody]

/-- A GraphQL allocation error naming "already has"/"already allocated"
is absorbed as success by `allocateIPAddress`. -/
theorem allocateIPAddress_already (msg : String) (rest : List String) (t : String)
    (hmsg : (Str.contains (Str.lower (Str.trim msg)) "already has" ||
             Str.contains (Str.lower (Str.trim msg)) "already allocated") = true) :
    allocateIPAddress (.ok ⟨msg :: rest⟩) t = .ok () := by
  unfold allocateIPAddress
  simp only [hmsg]
  simp

/-- When the app, networking and flyctl stages succeed, `deployViaAPI`
returns the extracted (or defaulted) host regardless of the volume
step's outcome. -/
theorem deployViaAPI_ok (env : ApiEnv) (cfg : Config) (org : String)
    (hfly : env.flyctlInstalled = true) (horg : env.orgSlug = .ok org)
    (happ : ensureAppExists env.appCreateResp cfg.name = .ok ())
    (hnet : ensureNetworking env.ipRespV4 env.ipRespV6 = .ok ())
    (hdeploy : env.flyctlDeploySucceeds = true) :
    (deployViaAPI env cfg).2 = .ok (if extractFlyHost env.flyctlDeployOutput = ""
      then cfg.name ++ ".fly.dev" else extractFlyHost env.flyctlDeployOutput) := by
  unfold deployViaAPI
  simp [hfly, horg, happ, hnet, hdeploy]

end Providers

/-- Claim C5: `VerifyAccessToken` on a machines-probe 401 rejects
definitively and never consults the GraphQL fallback (the verdict is
independent of the fallback environment); on a 403 the fallback's
outcome decides the verdict — fallback success accepts the token and
fallback failure rejects it. -/
theorem C5_verify_token (token body : String) (gqlResp gqlResp' : Providers.APIResp)
    (gqlDecoded gqlDecoded' : Except String Providers.GraphQLEnvelope)
    (htok : Str.trim token ≠ "") :
    (Providers.VerifyAccessToken token (.response 401 body) gqlResp gqlDecoded =
        .error ("token rejected by Fly API (" ++ toString (401 : Nat) ++ "): " ++
          Str.trim body)) ∧
    (Providers.VerifyAccessToken token (.response 401 body) gqlResp gqlDecoded =
        Providers.VerifyAccessToken token (.response 401 body) gqlResp' gqlDecoded') ∧
    (Providers.verifyAccessTokenGraphQL gqlResp gqlDecoded = .ok () →
        Providers.VerifyAccessToken token (.response 403 body) gqlResp gqlDecoded
          = .ok ()) ∧
    (∀ e, Providers.verifyAccessTokenGraphQL gqlResp gqlDecoded = .error e →
        Providers.VerifyAccessToken token (.response 403 body) gqlResp gqlDecoded =
          .error ("token verification failed: machines API returned 403 and graphql fallback failed: "
            ++ e)) := by
  refine ⟨?_, ?_, ?_, ?_⟩
  · simp [Providers.VerifyAccessToken, Providers.verifyAccessTokenMachinesProbe, htok]
  · simp [Providers.VerifyAccessToken, Providers.verifyAccessTokenMachinesProbe, htok]
  · intro hgql
    simp [Providers.VerifyAccessToken, Providers.verifyAccessTokenMachinesProbe, htok,
      hgql]
  · intro e hgql
    simp [Providers.VerifyAccessToken, Providers.verifyAccessTokenMachinesProbe, htok,
      hgql]

/-- Concrete probes discharging every hypothesis of `C5_verify_token`:
a 401 rejection, a 403 with a succeeding fallback, and a 403 with a
failing fallback. -/
theorem C5_verify_token_witness :
    (Providers.VerifyAccessToken "tok" (.response 401 "denied") (.response 200 "x")
        (.ok ⟨[], 1⟩) = .error "token rejected by Fly API (401): denied") ∧
    (Providers.VerifyAccessToken "tok" (.response 403 "denied") (.response 200 "x")
        (.ok ⟨[], 1⟩) = .ok ()) ∧
    (Providers.VerifyAccessToken "tok" (.response 403 "denied") (.response 500 "boom")
        (.ok ⟨[], 1⟩) =
      .error ("token verification failed: machines API returned 403 and graphql fallback failed: unexpected Fly GraphQL response (500): boom")) := by
  refine ⟨?_, ?_, ?_⟩
  · exact (C5_verify_token "tok" "denied" (.response 200 "x") (.response 200 "x")
      (.ok ⟨[], 1⟩) (.ok ⟨[], 1⟩) (by decide)).1
  · exact (C5_verify_token "tok" "denied" (.response 200 "x") (.response 200 "x")
      (.ok ⟨[], 1⟩) (.ok ⟨[], 1⟩) (by decide)).2.2.1 (by rfl)
  · exact (C5_verify_token "tok" "denied" (.response 500 "boom") (.response 500 "boom")
      (.ok ⟨[], 1⟩) (.ok ⟨[], 1⟩) (by decide)).2.2.2
      "unexpected Fly GraphQL response (500): boom" (by rfl)

/-- Claim C10: every non-2xx machines-probe status other than 401
consults the GraphQL fallback (route-404s and plain statuses such as 500
included): a succeeding fallback always accepts the token, in the
default case only a failing fallback rejects, and 401 is the single
status that rejects with no fallback. -/
theorem C10_fallback_default (token body : String) (status : Nat)
    (gqlResp : Providers.APIResp) (gqlDecoded : Except String Providers.GraphQLEnvelope)
    (htok : Str.trim token ≠ "") (h2xx : ¬(200 ≤ status ∧ status < 300)) :
    (status ≠ 401 → Providers.verifyAccessTokenGraphQL gqlResp gqlDecoded = .ok () →
      Providers.VerifyAccessToken token (.response status body) gqlResp gqlDecoded
        = .ok ()) ∧
    (status ≠ 401 → status ≠ 403 → status ≠ 404 →
      ∀ e, Providers.verifyAccessTokenGraphQL gqlResp gqlDecoded = .error e →
      Providers.VerifyAccessToken token (.response status body) gqlResp gqlDecoded =
        .error ("token verification failed: fly api returned " ++ toString status ++
          ": " ++ Str.trim body)) ∧
    (Providers.VerifyAccessToken token (.response 401 body) gqlResp gqlDecoded =
      .error ("token rejected by Fly API (" ++ toString (401 : Nat) ++ "): " ++
        Str.trim body)) := by
  refine ⟨?_, ?_, ?_⟩
  · intro h401 hgql
    by_cases h403 : status = 403
    · simp [Providers.VerifyAccessToken, Providers.verifyAccessTokenMachinesProbe,
        htok, h2xx, h401, h403, hgql]
    · by_cases h404 : status = 404
      · by_cases hroute : Providers.looksLikeRouteNotFound body = true
        · simp [Providers.VerifyAccessToken, Providers.verifyAccessTokenMachinesProbe,
            htok, h2xx, h401, h403, h404, hroute, hgql]
        · simp [Providers.VerifyAccessToken, Providers.verifyAccessTokenMachinesProbe,
            htok, h2xx, h401, h403, h404, hroute, hgql]
      · simp [Providers.VerifyAccessToken, Providers.verifyAccessTokenMachinesProbe,
          htok, h2xx, h401, h403, h404, hgql]
  · intro h401 h403 h404 e hgql
    simp [Providers.VerifyAccessToken, Providers.verifyAccessTokenMachinesProbe,
      htok, h2xx, h401, h403, h404, hgql]
  · simp [Providers.VerifyAccessToken, Providers.verifyAccessTokenMachinesProbe, htok]

/-- Concrete probes discharging every hypothesis of
`C10_fallback_default` at status 500 (fallback accepted and fallback
failed) and at 401. -/
theorem C10_fallback_default_witness :
    (Providers.VerifyAccessToken "tok" (.response 500 "oops") (.response 200 "x")
        (.ok ⟨[], 1⟩) = .ok ()) ∧
    (Providers.VerifyAccessToken "tok" (.response 500 "oops") (.response 500 "boom")
        (.ok ⟨[], 1⟩) =
      .error "token verification failed: fly api returned 500: oops") ∧
    (Providers.VerifyAccessToken "tok" (.response 401 "oops") (.response 200 "x")
        (.ok ⟨[], 1⟩) = .error "token rejected by Fly API (401): oops") := by
  refine ⟨?_, ?_, ?_⟩
  · exact (C10_fallback_default "tok" "oops" 500 (.response 200 "x") (.ok ⟨[], 1⟩)
      (by decide) (by decide)).1 (by decide) (by rfl)
  · exact (C10_fallback_default "tok" "oops" 500 (.response 500 "boom") (.ok ⟨[], 1⟩)
      (by decide) (by decide)).2.1 (by decide) (by decide) (by decide)
      "unexpected Fly GraphQL response (500): boom" (by rfl)
  · exact (C10_fallback_default "tok" "oops" 500 (.response 200 "x") (.ok ⟨[], 1⟩)
      (by decide) (by decide)).2.2

/-- Claim C7: a dry-run `Deploy` is independent of the token-resolution,
remote-API, log-write and health-check environment (it returns before
any of them is consulted) and, when the local steps succeed, returns the
deployment with `RPCURL = https://<name>.fly.dev` and
`WebSocketURL = wss://<name>.fly.dev` derived from the configured name. -/
theorem C7_dry_run (cfg : Providers.Config) (env env' : Providers.DeployEnv) (w : String)
    (hdry : cfg.dryRun = true) :
    (env.cwd = env'.cwd → env.mkdirArtifacts = env'.mkdirArtifacts →
      env.mkdirProgram = env'.mkdirProgram → env.prepareProgram = env'.prepareProgram →
      env.renderTemplates = env'.renderTemplates →
      Providers.Deploy env cfg = Providers.Deploy env' cfg) ∧
    (Str.trim cfg.name ≠ "" → Str.trim cfg.region ≠ "" →
      env.cwd = .ok w → env.mkdirArtifacts = .ok () → env.mkdirProgram = .ok () →
      env.prepareProgram = .ok () →
      Providers.firstRenderError env.renderTemplates = .ok () →
      ∃ adir, Providers.Deploy env cfg = .ok
        { name := cfg.name,
          rpcURL := "https://" ++ cfg.name ++ ".fly.dev",
          webSocketURL := "wss://" ++ cfg.name ++ ".fly.dev",
          provider := "fly", artifactsDir := adir }) := by
  constructor
  · intro h1 h2 h3 h4 h5
    unfold Providers.Deploy
    rw [h1, h2, h3, h4, h5]
    simp [hdry]
  · intro hname hregion hcwd hmk1 hmk2 hprep hrend
    by_cases hproj : cfg.projectDir = ""
    · refine ⟨w ++ "/.sol-cloud/deployments/" ++ cfg.name, ?_⟩
      simp [Providers.Deploy, hname, hregion, hproj, hcwd, hmk1, hmk2, hprep, hrend,
        hdry]
    · refine ⟨cfg.projectDir ++ "/.sol-cloud/deployments/" ++ cfg.name, ?_⟩
      simp [Providers.Deploy, hname, hregion, hproj, hcwd, hmk1, hmk2, hprep, hrend,
        hdry]

/-- Concrete environments discharging every hypothesis of `C7_dry_run`:
the second environment fails every remote step yet yields the identical
dry-run result. -/
theorem C7_dry_run_witness :
    (Providers.Deploy
        ⟨.ok "/w", .ok (), .ok (), .ok (), [.ok (), .ok (), .ok (), .ok ()], .ok "tok",
          .ok (), ⟨true, .ok "personal", .response 201 "", .ok ⟨[]⟩, .ok ⟨[]⟩, .ok [],
            .error "quota", "out", true⟩, .ok ()⟩
        ⟨"demo", "", "iad", "/p", true, false, 10, false⟩ =
      Providers.Deploy
        ⟨.ok "/w", .ok (), .ok (), .ok (), [.ok (), .ok (), .ok (), .ok ()],
          .error "no token", .error "disk full", ⟨false, .error "x", .transportError "t",
            .error "e", .error "e", .error "e", .error "e", "", false⟩, .error "bad"⟩
        ⟨"demo", "", "iad", "/p", true, false, 10, false⟩) ∧
    (∃ adir, Providers.Deploy
        ⟨.ok "/w", .ok (), .ok (), .ok (), [.ok (), .ok (), .ok (), .ok ()], .ok "tok",
          .ok (), ⟨true, .ok "personal", .response 201 "", .ok ⟨[]⟩, .ok ⟨[]⟩, .ok [],
            .error "quota", "out", true⟩, .ok ()⟩
        ⟨"demo", "", "iad", "/p", true, false, 10, false⟩ =
      .ok { name := "demo", rpcURL := "https://" ++ "demo" ++ ".fly.dev",
            webSocketURL := "wss://" ++ "demo" ++ ".fly.dev",
            provider := "fly", artifactsDir := adir }) := by
  constructor
  · exact (C7_dry_run ⟨"demo", "", "iad", "/p", true, false, 10, false⟩
      ⟨.ok "/w", .ok (), .ok (), .ok (), [.ok (), .ok (), .ok (), .ok ()], .ok "tok",
        .ok (), ⟨true, .ok "personal", .response 201 "", .ok ⟨[]⟩, .ok ⟨[]⟩, .ok [],
          .error "quota", "out", true⟩, .ok ()⟩
      ⟨.ok "/w", .ok (), .ok (), .ok (), [.ok (), .ok (), .ok (), .ok ()],
        .error "no token", .error "disk full", ⟨false, .error "x", .transportError "t",
          .error "e", .error "e", .error "e", .error "e", "", false⟩, .error "bad"⟩
      "/w" rfl).1 rfl rfl rfl rfl rfl
  · exact (C7_dry_run ⟨"demo", "", "iad", "/p", true, false, 10, false⟩
      ⟨.ok "/w", .ok (), .ok (), .ok (), [.ok (), .ok (), .ok (), .ok ()], .ok "tok",
        .ok (), ⟨true, .ok "personal", .response 201 "", .ok ⟨[]⟩, .ok ⟨[]⟩, .ok [],
          .error "quota", "out", true⟩, .ok ()⟩
      ⟨.ok "/w", .ok (), .ok (), .ok (), [.ok (), .ok (), .ok (), .ok ()], .ok "tok",
        .ok (), ⟨true, .ok "personal", .response 201 "", .ok ⟨[]⟩, .ok ⟨[]⟩, .ok [],
          .error "quota", "out", true⟩, .ok ()⟩
      "/w" rfl).2 (by decide) (by decide) rfl rfl rfl rfl rfl

/-- Claim C4: conflict-style remote responses are absorbed as success —
a 409/422 app creation with a documented conflict substring makes
`ensureAppExists` succeed, an IP allocation whose GraphQL error contains
"already has"/"already allocated" makes `allocateIPAddress` succeed, and
a full `Deploy` against a platform reporting both conflicts (a second
deploy of an identical config) completes successfully. -/
theorem C4_conflict_absorbed :
    (∀ (status : Nat) (body name : String), (status = 409 ∨ status = 422) →
      Providers.flyConflictBody body = true →
      Providers.ensureAppExists (.response status body) name = .ok ()) ∧
    (∀ (msg : String) (rest : List String) (t : String),
      (Str.contains (Str.lower (Str.trim msg)) "already has" ||
        Str.contains (Str.lower (Str.trim msg)) "already allocated") = true →
      Providers.allocateIPAddress (.ok ⟨msg :: rest⟩) t = .ok ()) ∧
    (∀ (env : Providers.DeployEnv) (cfg : Providers.Config) (w tok org : String)
        (status : Nat) (body m4 m6 : String) (r4 r6 : List String),
      cfg.dryRun = false → Str.trim cfg.name ≠ "" → Str.trim cfg.region ≠ "" →
      env.cwd = .ok w → env.mkdirArtifacts = .ok () → env.mkdirProgram = .ok () →
      env.prepareProgram = .ok () →
      Providers.firstRenderError env.renderTemplates = .ok () →
      env.resolveToken = .ok tok → env.writeDeployLog = .ok () →
      env.healthCheck = .ok () →
      env.api.flyctlInstalled = true → env.api.orgSlug = .ok org →
      env.api.appCreateResp = .response status body →
      (status = 409 ∨ status = 422) → Providers.flyConflictBody body = true →
      env.api.ipRespV4 = .ok ⟨m4 :: r4⟩ →
      Str.contains (Str.lower (Str.trim m4)) "already allocated" = true →
      env.api.ipRespV6 = .ok ⟨m6 :: r6⟩ →
      Str.contains (Str.lower (Str.trim m6)) "already allocated" = true →
      env.api.flyctlDeploySucceeds = true →
      ∃ d, Providers.Deploy env cfg = .ok d) := by
  refine ⟨Providers.ensureAppExists_conflict, Providers.allocateIPAddress_already, ?_⟩
  intro env cfg w tok org status body m4 m6 r4 r6
  intro hdry hname hregion hcwd hmk1 hmk2 hprep hrend htok hw hhc
  intro hfly horg happresp hst hbody hip4 hm4 hip6 hm6 hdeploy
  have happ : Providers.ensureAppExists env.api.appCreateResp cfg.name = .ok () := by
    rw [happresp]
    exact Providers.ensureAppExists_conflict status body cfg.name hst hbody
  have hnet : Providers.ensureNetworking env.api.ipRespV4 env.api.ipRespV6 = .ok () := by
    unfold Providers.ensureNetworking
    rw [hip4, hip6]
    rw [Providers.allocateIPAddress_already m4 r4 "shared_v4" (by simp [hm4])]
    exact Providers.allocateIPAddress_already m6 r6 "v6" (by simp [hm6])
  have hres := Providers.deployViaAPI_ok env.api cfg org hfly horg happ hnet hdeploy
  unfold Providers.Deploy
  simp [hdry, hname, hregion, hcwd, hmk1, hmk2, hprep, hrend, htok, hw, hhc, hres]
  by_cases hproj : cfg.projectDir = ""
  · simp [hproj]
  · simp [hproj]

/-- Concrete conflict responses discharging every hypothesis of
`C4_conflict_absorbed`, including a full deploy where both the app
creation (409 "already exists") and both IP allocations ("already
allocated") report conflicts. -/
theorem C4_conflict_absorbed_witness :
    (Providers.ensureAppExists (.response 409 "app already exists") "demo" = .ok ()) ∧
    (Providers.allocateIPAddress (.ok ⟨["Address already allocated"]⟩) "shared_v4"
      = .ok ()) ∧
    (∃ d, Providers.Deploy
        ⟨.ok "/w", .ok (), .ok (), .ok (), [.ok (), .ok (), .ok (), .ok ()], .ok "tok",
          .ok (), ⟨true, .ok "personal", .response 409 "app already exists",
            .ok ⟨["Address already allocated"]⟩, .ok ⟨["Address already allocated"]⟩,
            .ok [], .error "quota", "deployed https://demo.fly.dev", true⟩, .ok ()⟩
        ⟨"demo", "", "iad", "/p", false, false, 10, false⟩ = .ok d) := by
  refine ⟨?_, ?_, ?_⟩
  · exact C4_conflict_absorbed.1 409 "app already exists" "demo" (Or.inl rfl) (by decide)
  · exact C4_conflict_absorbed.2.1 "Address already allocated" [] "shared_v4" (by decide)
  · exact C4_conflict_absorbed.2.2
      ⟨.ok "/w", .ok (), .ok (), .ok (), [.ok (), .ok (), .ok (), .ok ()], .ok "tok",
        .ok (), ⟨true, .ok "personal", .response 409 "app already exists",
          .ok ⟨["Address already allocated"]⟩, .ok ⟨["Address already allocated"]⟩,
          .ok [], .error "quota", "deployed https://demo.fly.dev", true⟩, .ok ()⟩
      ⟨"demo", "", "iad", "/p", false, false, 10, false⟩
      "/w" "tok" "personal" 409 "app already exists"
      "Address already allocated" "Address already allocated" [] []
      rfl (by decide) (by decide) rfl rfl rfl rfl rfl rfl rfl rfl rfl rfl rfl
      (Or.inl rfl) (by decide) rfl (by decide) rfl (by decide) rfl

/-- Claim C8: the volume step lists existing volumes first and reuses a
volume named `<name>_ledger` whatever the create call would return,
creates only when absent, and a volume-step failure (list or create)
never fails `deployViaAPI` — it is logged as a warning and the sequence
continues to the flyctl build/deploy stage and succeeds. -/
theorem C8_volume_tolerant :
    (∀ (vols : List Providers.FlyVolume) (createResp : Except String Providers.FlyVolume)
        (appName : String) (v : Providers.FlyVolume),
      vols.find? (fun vv => vv.name == appName ++ "_ledger") = some v →
      Providers.ensureVolume (.ok vols) createResp appName = .ok v) ∧
    (∀ (vols : List Providers.FlyVolume) (createResp : Except String Providers.FlyVolume)
        (appName : String),
      vols.find? (fun vv => vv.name == appName ++ "_ledger") = none →
      Providers.ensureVolume (.ok vols) createResp appName = createResp) ∧
    (∀ (env : Providers.ApiEnv) (cfg : Providers.Config) (org e : String),
      env.flyctlInstalled = true → env.orgSlug = .ok org →
      Providers.ensureAppExists env.appCreateResp cfg.name = .ok () →
      Providers.ensureNetworking env.ipRespV4 env.ipRespV6 = .ok () →
      cfg.skipVolume = false →
      Providers.ensureVolume env.listVolumesResp env.createVolumeResp cfg.name
        = .error e →
      env.flyctlDeploySucceeds = true →
      ∃ host, Providers.deployViaAPI env cfg =
        ("api deploy started\n" ++ "app=" ++ cfg.name ++ " org=" ++ org ++ " region=" ++
          cfg.region ++ "\n" ++ "app ensured\n" ++ "networking ensured\n" ++
          "volume creation warning: " ++ e ++ "\n" ++
          "continuing with ephemeral storage (data will not persist across restarts)\n" ++
          "\n[flyctl deploy --remote-only]\n" ++ env.flyctlDeployOutput,
          .ok host)) := by
  refine ⟨?_, ?_, ?_⟩
  · intro vols createResp appName v hfind
    unfold Providers.ensureVolume
    simp [hfind]
  · intro vols createResp appName hfind
    unfold Providers.ensureVolume
    simp [hfind]
  · intro env cfg org e hfly horg happ hnet hskip hvol hdeploy
    unfold Providers.deployViaAPI
    simp [hfly, horg, happ, hnet, hskip, hvol, hdeploy]

/-- Concrete volume environments discharging every hypothesis of
`C8_volume_tolerant`: reuse of an existing `demo_ledger`, creation when
absent, and a failing volume list that only produces a log warning. -/
theorem C8_volume_tolerant_witness :
    (Providers.ensureVolume
        (.ok [⟨"vol1", "demo_ledger", "created", "iad"⟩]) (.error "quota") "demo"
      = .ok ⟨"vol1", "demo_ledger", "created", "iad"⟩) ∧
    (Providers.ensureVolume (.ok []) (.ok ⟨"vol2", "demo_ledger", "created", "iad"⟩)
        "demo" = .ok ⟨"vol2", "demo_ledger", "created", "iad"⟩) ∧
    (∃ host, Providers.deployViaAPI
        ⟨true, .ok "personal", .response 201 "", .ok ⟨[]⟩, .ok ⟨[]⟩, .error "boom",
          .error "quota", "out", true⟩
        ⟨"demo", "", "iad", "/p", false, false, 10, false⟩ =
      ("api deploy started\n" ++ "app=" ++ "demo" ++ " org=" ++ "personal" ++
        " region=" ++ "iad" ++ "\n" ++ "app ensured\n" ++ "networking ensured\n" ++
        "volume creation warning: " ++ "list volumes: boom" ++ "\n" ++
        "continuing with ephemeral storage (data will not persist across restarts)\n" ++
        "\n[flyctl deploy --remote-only]\n" ++ "out", .ok host)) := by
  refine ⟨?_, ?_, ?_⟩
  · exact C8_volume_tolerant.1 [⟨"vol1", "demo_ledger", "created", "iad"⟩]
      (.error "quota") "demo" ⟨"vol1", "demo_ledger", "created", "iad"⟩ (by decide)
  · exact C8_volume_tolerant.2.1 [] (.ok ⟨"vol2", "demo_ledger", "created", "iad"⟩)
      "demo" (by decide)
  · exact C8_volume_tolerant.2.2
      ⟨true, .ok "personal", .response 201 "", .ok ⟨[]⟩, .ok ⟨[]⟩, .error "boom",
        .error "quota", "out", true⟩
      ⟨"demo", "", "iad", "/p", false, false, 10, false⟩
      "personal" "list volumes: boom" rfl rfl rfl rfl (by decide) rfl rfl

namespace Health

/-- With probes that always fail, the poll loop exits with a timeout
wrapping the last attempted probe's error, at the first attempt index
whose next tick would come no sooner than the context deadline. -/
theorem waitLoop_timedOut (probe : Nat → Except String Unit) (err : Nat → String)
    (timeout interval : Int)
    (hprobe : ∀ k, probe k = Except.error (err k))
    (hT : 0 < timeout) :
    ∀ (fuel k : Nat), 1 ≤ fuel → timeout ≤ ((k : Int) + (fuel : Int)) * interval →
      ∃ n, k ≤ n ∧
        waitLoop probe timeout interval fuel k =
          .timedOut ("rpc endpoint did not become healthy: " ++ err n)
            (max ((n : Int) * interval) timeout) ∧
        timeout ≤ ((n : Int) + 1) * interval ∧
        (n = k ∨ (n : Int) * interval < timeout) := by
  intro fuel
  induction fuel with
  | zero => intro k h1; omega
  | succ f ih =>
    intro k _ hsum
    have hstep : waitLoop probe timeout interval (f + 1) k =
        (if 0 < timeout ∧ timeout ≤ ((k : Int) + 1) * interval then
          WaitOutcome.timedOut ("rpc endpoint did not become healthy: " ++ err k)
            (max ((k : Int) * interval) timeout)
        else waitLoop probe timeout interval f (k + 1)) := by
      conv_lhs => rw [waitLoop]
      rw [hprobe k]
    by_cases hc : 0 < timeout ∧ timeout ≤ ((k : Int) + 1) * interval
    · refine ⟨k, le_refl k, ?_, hc.2, Or.inl rfl⟩
      rw [hstep, if_pos hc]
    · have hkI : ((k : Int) + 1) * interval < timeout := by
        push_neg at hc
        exact lt_of_not_le (fun hle => absurd (hc hT) (not_lt.mpr hle))
      have hf : 1 ≤ f := by
        by_contra hf0
        have hf0' : f = 0 := by omega
        subst hf0'
        push_cast at hsum
        omega
      have hsum' : timeout ≤ (((k + 1 : Nat) : Int) + (f : Int)) * interval := by
        push_cast
        push_cast at hsum
        have : ((k : Int) + (f + 1)) * interval = ((k : Int) + 1 + f) * interval := by
          ring
        linarith [hsum, this]
      obtain ⟨n, hkn, hres, hTn, hlast⟩ := ih (k + 1) hf hsum'
      refine ⟨n, by omega, ?_, hTn, ?_⟩
      · rw [hstep, if_neg hc]
        exact hres
      · rcases hlast with h | h
        · subst h
          right
          push_cast
          linarith [hkI]
        · exact Or.inr h

/-- One failed probe whose deadline has not yet arrived advances the
loop to the next tick. -/
theorem waitLoop_step_fail (probe : Nat → Except String Unit) (timeout interval : Int)
    (f k : Nat) (e : String) (hp : probe k = .error e)
    (hc : ¬(0 < timeout ∧ timeout ≤ ((k : Int) + 1) * interval)) :
    waitLoop probe timeout interval (f + 1) k
      = waitLoop probe timeout interval f (k + 1) := by
  conv_lhs => rw [waitLoop]
  rw [hp]
  exact if_neg hc

/-- A successful probe ends the loop immediately. -/
theorem waitLoop_step_ok (probe : Nat → Except String Unit) (timeout interval : Int)
    (f k : Nat) (hp : probe k = .ok ()) :
    waitLoop probe timeout interval (f + 1) k
      = .healthy (k + 1) ((k : Int) * interval) := by
  conv_lhs => rw [waitLoop]
  rw [hp]

end Health

/-- Claim C6 counterexample: with timeout 3 and interval 2 the interval
is shorter than the timeout and the probe fails twice then succeeds,
yet `waitForRPCHealthy` returns a timeout at time 3 — the third probe
(due at time 4) is never attempted, so the claim's success guarantee
fails as stated. -/
theorem C6_wait_healthy_counterexample :
    (2 : Int) < 3 ∧
    Health.waitForRPCHealthy "https://demo.fly.dev"
        (fun k => if k < 2 then .error "connection refused" else .ok ()) 3 2 10 =
      .ok (.timedOut "rpc endpoint did not become healthy: connection refused" 3) := by
  constructor
  · norm_num
  · rfl

/-- Claim C6 (amended): when twice the interval is below the timeout, a
probe failing twice then succeeding yields success after the third probe
at time `2·interval`; and for probes that always fail the poller returns
a timeout error no earlier than the timeout and no later than timeout
plus one interval, wrapping the failure of the last probe attempted —
the index `n` is pinned as the last attempt: every attempt before `n`
was followed by a tick strictly before the deadline (so attempts
`0..n` all ran), and the deadline fires no later than the tick after
`n` (so no further attempt runs). -/
theorem C6_wait_healthy_amended (rpcURL : String) (probe : Nat → Except String Unit)
    (err : Nat → String) (timeout interval : Int) (fuel : Nat) (e0 e1 : String)
    (hurl : Str.trim rpcURL ≠ "") :
    (probe 0 = .error e0 → probe 1 = .error e1 → probe 2 = .ok () →
      0 < interval → 2 * interval < timeout → 3 ≤ fuel →
      Health.waitForRPCHealthy rpcURL probe timeout interval fuel =
        .ok (.healthy 3 (2 * interval))) ∧
    ((∀ k, probe k = .error (err k)) → 0 < interval → 0 < timeout →
      1 ≤ fuel → timeout ≤ (fuel : Int) * interval →
      ∃ n t, Health.waitForRPCHealthy rpcURL probe timeout interval fuel =
          .ok (.timedOut ("rpc endpoint did not become healthy: " ++ err n) t) ∧
        timeout ≤ t ∧ t ≤ timeout + interval ∧
        (∀ m : Nat, m < n → ((m : Int) + 1) * interval < timeout) ∧
        timeout ≤ ((n : Int) + 1) * interval) := by
  constructor
  · intro hp0 hp1 hp2 hI h2I hfuel
    obtain ⟨f, rfl⟩ : ∃ f, fuel = f + 3 := ⟨fuel - 3, by omega⟩
    unfold Health.waitForRPCHealthy
    rw [if_neg hurl]
    rw [show f + 3 = (f + 2) + 1 from rfl,
      Health.waitLoop_step_fail probe timeout interval (f + 2) 0 e0 hp0
        (by push_cast; intro h; rcases h with ⟨_, hle⟩; linarith),
      show f + 2 = (f + 1) + 1 from rfl,
      Health.waitLoop_step_fail probe timeout interval (f + 1) 1 e1 hp1
        (by push_cast; intro h; rcases h with ⟨_, hle⟩; linarith),
      show f + 1 = f + 1 from rfl,
      Health.waitLoop_step_ok probe timeout interval f 2 hp2]
    norm_num
  · intro hprobe hI hT hfuel hsum
    obtain ⟨n, _, hres, hTn, hlast⟩ :=
      Health.waitLoop_timedOut probe err timeout interval hprobe hT fuel 0 hfuel
        (by push_cast; simpa using hsum)
    have hmax : max ((n : Int) * interval) timeout = timeout := by
      rcases hlast with h | h
      · subst h
        push_cast
        simp
        omega
      · exact max_eq_right (le_of_lt h)
    have hearlier : ∀ m : Nat, m < n → ((m : Int) + 1) * interval < timeout := by
      intro m hm
      have hnI : (n : Int) * interval < timeout := by
        rcases hlast with h | h
        · omega
        · exact h
      have hmn : ((m : Int) + 1) ≤ (n : Int) := by
        exact_mod_cast hm
      calc ((m : Int) + 1) * interval ≤ (n : Int) * interval := by
            exact mul_le_mul_of_nonneg_right hmn (le_of_lt hI)
        _ < timeout := hnI
    refine ⟨n, timeout, ?_, le_refl timeout, by linarith, hearlier, hTn⟩
    unfold Health.waitForRPCHealthy
    rw [if_neg hurl, hres, hmax]

/-- Concrete probe schedules discharging every hypothesis of
`C6_wait_healthy_amended`: two failures then success with timeout 10 and
interval 2, and an always-failing probe with a distinct error per
attempt (timeout 3, interval 2) whose timeout error provably wraps
"refused 1" — the second and last probe attempted, not the first. -/
theorem C6_wait_healthy_amended_witness :
    (Health.waitForRPCHealthy "https://demo.fly.dev"
        (fun k => if k < 2 then .error "connection refused" else .ok ()) 10 2 10 =
      .ok (.healthy 3 (2 * 2))) ∧
    (∃ t : Int, Health.waitForRPCHealthy "https://demo.fly.dev"
        (fun k => .error ("refused " ++ toString k)) 3 2 10 =
      .ok (.timedOut
        ("rpc endpoint did not become healthy: " ++ ("refused " ++ toString 1)) t)
      ∧ (3 : Int) ≤ t ∧ t ≤ 3 + 2) := by
  constructor
  · exact (C6_wait_healthy_amended "https://demo.fly.dev"
      (fun k => if k < 2 then .error "connection refused" else .ok ())
      (fun _ => "connection refused") 10 2 10 "connection refused" "connection refused"
      (by decide)).1 rfl rfl rfl (by norm_num) (by norm_num) (by norm_num)
  · obtain ⟨n, t, hres, h1, h2, hearlier, hTn⟩ :=
      (C6_wait_healthy_amended "https://demo.fly.dev"
        (fun k => .error ("refused " ++ toString k))
        (fun k => "refused " ++ toString k) 3 2 10 "refused 0" "refused 1"
        (by decide)).2 (fun _ => rfl) (by norm_num) (by norm_num) (by norm_num)
        (by norm_num)
    have hn : n = 1 := by
      rcases Nat.lt_or_ge n 2 with h | h
      · interval_cases n
        · exfalso
          norm_num at hTn
        · rfl
      · exfalso
        have := hearlier 1 (by omega)
        norm_num at this
    subst hn
    exact ⟨t, hres, h1, h2⟩
